import Mathlib

/-!
Shallow embedding of the `node-manager` repository's block-ingestion pipeline
(mindreader), backup scheduling (operator) and the archiver-selector reference
test, together with theorems settling the specification claims.

Sources embedded:
  * `src/mindreader/gator.go`               — `BlockNumberGate`
  * `src/mindreader/mindreader.go`          — `readOneMessage`, `ReadFlow`,
    `consumeReadFlow`
  * `src/unnamed/part_001` (package operator) — `BackupModule`,
    `NewBackupSchedule`, `selectBackupModule`, `selectRestoreModule`
  * `src/mindreader/archiver_selector_test.go` — the `TestArchiverSelector`
    scenario table
-/

namespace NodeManager

/-- A `bstream.Block` as used by the mindreader: only the fields the pipeline
inspects (`Num()`, `ID()`, `Time()`). `time` is a wall-clock instant in
nanoseconds. -/
structure Block where
  num : Nat
  id : String
  time : Int
deriving DecidableEq, Repr

/-! ### Gator (`src/mindreader/gator.go`) -/

/-- State of the start-block gate (`BlockNumberGate` in gator.go). -/
structure BlockNumberGate where
  passed : Bool
  blockNum : Nat
deriving DecidableEq, Repr

/-- `NewBlockNumberGate(blockNum)`: a fresh gate, not yet passed. -/
def NewBlockNumberGate (blockNum : Nat) : BlockNumberGate :=
  { passed := false, blockNum := blockNum }

/-- `(g *BlockNumberGate) pass(block)`: returns `true` immediately when the
gate has already passed; otherwise sets `passed` to `block.Num() >= g.blockNum`
and returns it. Result is the returned Bool paired with the mutated gate. -/
def BlockNumberGate.pass (g : BlockNumberGate) (block : Block) : Bool × BlockNumberGate :=
  if g.passed then (true, g)
  else
    let passed := decide (block.num ≥ g.blockNum)
    (passed, { g with passed := passed })

/-- Feeding a list of blocks through the gate, collecting each call's result. -/
def gateResults (g : BlockNumberGate) : List Block → List Bool
  | [] => []
  | b :: bs =>
    let r := g.pass b
    r.fst :: gateResults r.snd bs

/-- Final gate state after feeding a list of blocks. -/
def gateFinal (g : BlockNumberGate) : List Block → BlockNumberGate
  | [] => g
  | b :: bs => gateFinal (g.pass b).snd bs

/-! ### Read flow (`src/mindreader/mindreader.go`, `readOneMessage` / `ReadFlow`) -/

/-- A Go `error` as seen by `ReadFlow`: either the distinguished `io.EOF`
or any other error (carrying its message). -/
inductive GoErr where
  | eof
  | msg (s : String)
deriving DecidableEq, Repr

/-- The mutable plugin state that `readOneMessage` reads and writes:
the gate, the configured stop block and the terminating flag of the shutter.
`go p.Shutdown(nil)` is asynchronous in the source; the embedding records the
initiation by setting `terminating`, which is what `IsTerminating()` observes
once the goroutine has run. -/
structure ReadState where
  gator : BlockNumberGate
  stopAtBlockNum : Nat
  terminating : Bool
deriving DecidableEq, Repr

/-- Observable effects of one `readOneMessage(blocks)` call. -/
structure ReadMsgOutcome where
  /-- the returned `error` (`none` = `nil`). -/
  result : Option GoErr
  /-- the block sent on the `blocks` channel, when any. -/
  enqueued : Option Block
  /-- the block passed to `headBlockUpdateFunc`, when invoked. -/
  headUpdated : Option Block
  /-- whether `go p.Shutdown(nil)` was launched by the stop-block check. -/
  shutdownInitiated : Bool
  state : ReadState
deriving DecidableEq, Repr

/-- `readOneMessage`: read one object from the console reader (its result is
the `readRes` input), transform it, apply the gate (silent drop when closed),
invoke the head-block updater when configured, enqueue the block, and when
`stopAtBlockNum != 0 && block.Num() >= stopAtBlockNum && !IsTerminating()`
launch an asynchronous `Shutdown(nil)`. -/
def readOneMessage {α : Type} (st : ReadState) (readRes : Except GoErr α)
    (transformer : α → Except String Block) (hasHeadUpdate : Bool) : ReadMsgOutcome :=
  match readRes with
  | .error e => ⟨some e, none, none, false, st⟩
  | .ok obj =>
    match transformer obj with
    | .error e =>
      ⟨some (.msg ("unable to transform console read obj to bstream.Block: " ++ e)),
        none, none, false, st⟩
    | .ok block =>
      let gr := st.gator.pass block
      if gr.fst = false then
        ⟨none, none, none, false, { st with gator := gr.snd }⟩
      else
        let headUpdated := if hasHeadUpdate then some block else none
        let shut := (decide (st.stopAtBlockNum ≠ 0)) &&
          (decide (block.num ≥ st.stopAtBlockNum)) && (! st.terminating)
        ⟨none, some block, headUpdated, shut,
          { st with gator := gr.snd, terminating := st.terminating || shut }⟩

/-- Aggregated trace of the `ReadFlow` loop over a finite list of console-read
results. -/
structure ReadFlowResult where
  /-- blocks enqueued on the `blocks` channel, in order. -/
  delivered : List Block
  /-- number of `setMaintenanceFunc()` invocations made by the loop. -/
  maintenanceCalls : Nat
  /-- whether the loop returned because `readOneMessage` yielded `io.EOF`. -/
  stoppedAtEof : Bool
  /-- whether any step launched `Shutdown(nil)` via the stop-block check. -/
  shutdownInitiated : Bool
  /-- number of console-read results consumed by the loop. -/
  processed : Nat
  finalState : ReadState
deriving DecidableEq, Repr

/-- `ReadFlow`'s loop body, run over a finite list of console-read results:
on `io.EOF` the loop returns; on any other error it calls
`setMaintenanceFunc()` and continues; otherwise it continues. An exhausted
input list corresponds to the loop blocking in the next `Read()`. -/
def ReadFlowRun {α : Type} (transformer : α → Except String Block) (hasHeadUpdate : Bool) :
    ReadState → List (Except GoErr α) → ReadFlowResult
  | st, [] => ⟨[], 0, false, false, 0, st⟩
  | st, ev :: evs =>
    let o := readOneMessage st ev transformer hasHeadUpdate
    match o.result with
    | some .eof => ⟨[], 0, true, o.shutdownInitiated, 1, o.state⟩
    | some (.msg _) =>
      let rest := ReadFlowRun transformer hasHeadUpdate o.state evs
      ⟨rest.delivered, rest.maintenanceCalls + 1, rest.stoppedAtEof,
        o.shutdownInitiated || rest.shutdownInitiated, rest.processed + 1, rest.finalState⟩
    | none =>
      let rest := ReadFlowRun transformer hasHeadUpdate o.state evs
      ⟨o.enqueued.toList ++ rest.delivered, rest.maintenanceCalls, rest.stoppedAtEof,
        o.shutdownInitiated || rest.shutdownInitiated, rest.processed + 1, rest.finalState⟩

/-! ### Consume flow (`src/mindreader/mindreader.go`, `consumeReadFlow`) -/

/-- The collaborators `consumeReadFlow` calls for each received block.
Each Go method returns an `error`; `some e` is a non-nil error with message
`e`, `none` is `nil`. `ccWrite`/`pushBlock` are `none` when the corresponding
field (`continuityChecker` / `blockServer`) is `nil`. -/
structure ConsumeEnv where
  storeBlock : Block → Option String
  ccWrite : Option (Nat → Option String)
  pushBlock : Option (Block → Option String)

/-- Observable effects of handling one block in the consume loop. -/
structure ConsumeStep where
  /-- `setMaintenanceFunc()` was invoked. -/
  maintenance : Bool
  /-- `blockServer.PushBlock` was invoked. -/
  pushed : Bool
  /-- `p.Shutdown(err)` was invoked with this wrapped error message. -/
  shutdown : Option String
  /-- the loop proceeds to the next iteration (no `return`). -/
  continues : Bool
deriving DecidableEq, Repr

/-- The live-publish tail of the consume-loop body: push to `blockServer`
when one is configured; a push error shuts the plugin down with the wrapped
error and stops the loop. -/
def consumePush (env : ConsumeEnv) (block : Block) : ConsumeStep :=
  match env.pushBlock with
  | none => { maintenance := false, pushed := false, shutdown := none, continues := true }
  | some push =>
    match push block with
    | some e =>
      { maintenance := false, pushed := true,
        shutdown := some ("failed writing to blocks server handler: " ++ e), continues := false }
    | none => { maintenance := false, pushed := true, shutdown := none, continues := true }

/-- The `case block := <-blocks` body of `consumeReadFlow`: archive the block
(fatal on error), then continuity-check (maintenance and `continue` on error),
then live-publish (fatal on error). -/
def consumeBlock (env : ConsumeEnv) (block : Block) : ConsumeStep :=
  match env.storeBlock block with
  | some e =>
    { maintenance := false, pushed := false,
      shutdown := some ("archiver store block failed: " ++ e), continues := false }
  | none =>
    match env.ccWrite with
    | some write =>
      match write block.num with
      | some _ => { maintenance := true, pushed := false, shutdown := none, continues := true }
      | none => consumePush env block
    | none => consumePush env block

/-! ### Backup modules and schedules (`src/unnamed/part_001`, package operator) -/

/-- `2^32`, the number of values of Go's `uint32`. -/
def uint32Size : Nat := 2 ^ 32

/-- `2^64`, the number of values of Go's `uint64`. -/
def uint64Size : Nat := 2 ^ 64

/-- `2^63`, the number of non-negative values of Go's 64-bit `int`. -/
def int64Half : Nat := 2 ^ 63

/-- A value of the Go `BackupModule` interface. The declared method set is
`Backup(lastSeenBlockNum uint32) (string, error)` — note the `uint32`
parameter — and `RequiresStop() bool`. A module additionally satisfying
`RestorableBackupModule` carries a `Restore(name string) error` method; the
runtime type assertion `v.(RestorableBackupModule)` is modelled by the
presence of the optional `restore` field. -/
structure BackupModule where
  backup : Fin uint32Size → Except String String
  requiresStop : Bool
  restore : Option (String → Option String)

/-- A call `Backup(n)` on a backup module is well-typed exactly when `n` is
representable in the declared parameter type of `BackupModule.backup`. -/
def backupCallWellTyped (n : Nat) : Prop :=
  ∃ i : Fin uint32Size, (i : Nat) = n

/-- The Go `BackupSchedule` struct. `BlocksBetweenRuns` has Go type `int`
(64-bit two's complement, hence `Int` restricted by construction);
`TimeBetweenRuns` is a `time.Duration` in nanoseconds. -/
structure BackupSchedule where
  BlocksBetweenRuns : Int
  TimeBetweenRuns : Int
  RequiredHostnameMatch : String
  BackuperName : String
deriving DecidableEq, Repr

/-- `'0' ≤ c && c ≤ '9'`. -/
def isDecDigit (c : Char) : Bool :=
  decide ('0' ≤ c) && decide (c ≤ '9')

/-- Decimal value of a digit list accumulated most-significant first. -/
def decDigitsVal (cs : List Char) : Nat :=
  cs.foldl (fun acc c => acc * 10 + (c.toNat - 48)) 0

/-- Go's `strconv.ParseUint(s, 10, 64)`: succeeds exactly on a non-empty
string of decimal digits whose value fits in 64 bits (no sign, no
underscores at explicit base 10); `none` covers both syntax and range
errors (the Go call returns a non-nil error in either case). -/
def parseUint64 (s : String) : Option Nat :=
  if s.data.isEmpty then none
  else if s.data.all isDecDigit then
    if decDigitsVal s.data < uint64Size then some (decDigitsVal s.data) else none
  else none

/-- The Go conversion `int(u)` from `uint64` to 64-bit `int`: two's
complement reinterpretation. -/
def intOfUint64 (n : Nat) : Int :=
  if n < int64Half then (n : Int) else (n : Int) - (uint64Size : Int)

/-- `time.Minute` in nanoseconds. -/
def goMinute : Int := 60 * 1000000000

/-- `NewBackupSchedule(freqBlocks, freqTime, requiredHostname, backuperName)`.
`parseDuration` stands for Go's `time.ParseDuration` (library code outside
this repository), returning the parsed duration in nanoseconds or `none` on a
parse error; the function under study only branches on its result. The
`switch` tries the `freqBlocks != ""` case first, then `freqTime != ""`,
then fails. -/
def NewBackupSchedule (parseDuration : String → Option Int)
    (freqBlocks freqTime requiredHostname backuperName : String) :
    Except String BackupSchedule :=
  if freqBlocks ≠ "" then
    match parseUint64 freqBlocks with
    | none => .error "invalid value for freq_block in backup schedule"
    | some freqUint =>
      if freqUint = 0 then .error "invalid value for freq_block in backup schedule"
      else
        .ok { BlocksBetweenRuns := intOfUint64 freqUint, TimeBetweenRuns := 0,
              RequiredHostnameMatch := requiredHostname, BackuperName := backuperName }
  else if freqTime ≠ "" then
    match parseDuration freqTime with
    | none => .error "invalid value for freq_time in backup schedule"
    | some d =>
      if d < goMinute then .error "invalid value for freq_time in backup schedule"
      else
        .ok { BlocksBetweenRuns := 0, TimeBetweenRuns := d,
              RequiredHostnameMatch := requiredHostname, BackuperName := backuperName }
  else .error "schedule created without any frequency value"

/-- Errors of the module-selection helpers, by `fmt.Errorf` site. -/
inductive SelectErr where
  | noModules
  | invalidModule (name : String)
  | moreThanOne (names : List String)
  | noRestorable
  | invalidRestorable (name : String)
  | moreThanOneRestorable (names : List String)
  | impossible
deriving DecidableEq, Repr

/-- The registry `map[string]BackupModule`, as an association list with
unique keys (Go map iteration order is unspecified; the claims settled here
depend only on size and membership). -/
abbrev ModuleRegistry : Type := List (String × BackupModule)

/-- Map indexing `mods[name]`. -/
def lookupModule : ModuleRegistry → String → Option BackupModule
  | [], _ => none
  | (k, v) :: rest, name => if k = name then some v else lookupModule rest name

/-- `selectBackupModule(mods, optionalName)`: error on an empty registry;
with a name, index (error when absent); with no name, error listing the
registered names when more than one module exists, else the unique module. -/
def selectBackupModule (mods : ModuleRegistry) (optionalName : String) :
    Except SelectErr BackupModule :=
  if mods.length = 0 then .error .noModules
  else if optionalName ≠ "" then
    match lookupModule mods optionalName with
    | some chosen => .ok chosen
    | none => .error (.invalidModule optionalName)
  else if mods.length > 1 then .error (.moreThanOne (mods.map Prod.fst))
  else
    match mods with
    | (_, m) :: _ => .ok m
    | [] => .error .impossible

/-- `restorable(in)`: the sub-registry of modules satisfying the
`RestorableBackupModule` type assertion. -/
def restorableModules (mods : ModuleRegistry) : ModuleRegistry :=
  mods.filter fun kv => kv.2.restore.isSome

/-- `selectRestoreModule(choices, optionalName)`: the same selection logic
applied to the restorable sub-registry. -/
def selectRestoreModule (choices : ModuleRegistry) (optionalName : String) :
    Except SelectErr BackupModule :=
  let mods := restorableModules choices
  if mods.length = 0 then .error .noRestorable
  else if optionalName ≠ "" then
    match lookupModule mods optionalName with
    | some chosen => .ok chosen
    | none => .error (.invalidRestorable optionalName)
  else if mods.length > 1 then .error (.moreThanOneRestorable (mods.map Prod.fst))
  else
    match mods with
    | (_, m) :: _ => .ok m
    | [] => .error .impossible

/-! ### Archiver-selector reference test
(`src/mindreader/archiver_selector_test.go`, `TestArchiverSelector`)

The archiver selector and merge archiver implementations are not part of the
source tree here; the repository documents their behaviour through this test
table, embedded verbatim (block `n` has timestamp `now − 1h + n·1s`, and the
expected one-block files are identified by their block numbers). -/

/-- One row of the `TestArchiverSelector` table. -/
structure SelectorScenario where
  name : String
  input : List Nat
  mergeTimeThreshold : Int
  expectUploadedMergedBlocks : List Nat
  expectBufferedMergedBlocks : List Nat
  expectOneBlocks : List Nat
deriving DecidableEq, Repr

/-- `time.Second` in nanoseconds. -/
def goSecond : Int := 1000000000

/-- `time.Hour` in nanoseconds. -/
def goHour : Int := 3600 * goSecond

/-- The scenario table of `TestArchiverSelector`. -/
def archiverSelectorTests : List SelectorScenario :=
  [ { name := "one block", input := [99], mergeTimeThreshold := 999 * goHour,
      expectUploadedMergedBlocks := [], expectBufferedMergedBlocks := [],
      expectOneBlocks := [99] },
    { name := "one old block", input := [99], mergeTimeThreshold := goMinute,
      expectUploadedMergedBlocks := [], expectBufferedMergedBlocks := [],
      expectOneBlocks := [99] },
    { name := "one boundary old block", input := [100], mergeTimeThreshold := goMinute,
      expectUploadedMergedBlocks := [], expectBufferedMergedBlocks := [100],
      expectOneBlocks := [] },
    { name := "multiple old blocks starting on boundary", input := [100, 101, 102, 103],
      mergeTimeThreshold := goMinute,
      expectUploadedMergedBlocks := [], expectBufferedMergedBlocks := [100, 101, 102, 103],
      expectOneBlocks := [] },
    { name := "multiple old blocks traverse boundary", input := [98, 99, 100, 101, 102],
      mergeTimeThreshold := goMinute,
      expectUploadedMergedBlocks := [], expectBufferedMergedBlocks := [100, 101, 102],
      expectOneBlocks := [98, 99, 100] },
    { name := "multiple young blocks traverse boundary", input := [98, 99, 100, 101, 102],
      mergeTimeThreshold := 999 * goHour,
      expectUploadedMergedBlocks := [], expectBufferedMergedBlocks := [],
      expectOneBlocks := [98, 99, 100, 101, 102] },
    { name := "holes in the stream", input := [98, 99, 101, 102],
      mergeTimeThreshold := goMinute,
      expectUploadedMergedBlocks := [], expectBufferedMergedBlocks := [101, 102],
      expectOneBlocks := [98, 99, 101] },
    { name := "from merged to live young blocks", input := [98, 99, 101, 102, 199, 200, 201],
      mergeTimeThreshold := (3600 - 199) * goSecond,
      expectUploadedMergedBlocks := [101, 102, 199], expectBufferedMergedBlocks := [],
      expectOneBlocks := [98, 99, 101, 200, 201] } ]

/-- A bundle is a full aligned hundred-range: exactly the numbers
`100k, …, 100k+99` in order, for some `k`. -/
def alignedHundredRange (nums : List Nat) : Bool :=
  match nums.head? with
  | none => false
  | some h =>
    decide (h % 100 = 0) && decide (nums = (List.range 100).map fun i => h + i)

/-- Adjacent elements strictly ascend. -/
def strictlyAscending : List Nat → Bool
  | [] => true
  | [_] => true
  | a :: b :: rest => decide (a < b) && strictlyAscending (b :: rest)

/-- A bundle lies inside a single aligned hundred-window and is strictly
increasing: all its numbers are in `[100k, 100k+99]` for the `k` of its first
element, in strictly ascending order. (Vacuously true of the empty bundle.) -/
def withinAlignedWindow (nums : List Nat) : Bool :=
  match nums.head? with
  | none => true
  | some h =>
    (nums.all fun n => decide (100 * (h / 100) ≤ n) && decide (n ≤ 100 * (h / 100) + 99)) &&
      strictlyAscending nums

/-! ### Auxiliary concrete data used in witnesses -/

/-- Whether a console-read result makes `readOneMessage` return a non-nil,
non-EOF error (direct read error, or transformer failure). -/
def maintenanceEvent {α : Type} (transformer : α → Except String Block) :
    Except GoErr α → Bool
  | .error .eof => false
  | .error (.msg _) => true
  | .ok obj =>
    match transformer obj with
    | .error _ => true
    | .ok _ => false

/-- The identity transformer (console reader already yields blocks). -/
def idTransformer : Block → Except String Block := fun b => .ok b

/-- Consume environment whose archiver always fails. -/
def envStoreErr : ConsumeEnv :=
  { storeBlock := fun _ => some "disk full", ccWrite := none, pushBlock := none }

/-- Consume environment whose archiver succeeds and whose continuity checker
always reports a break. -/
def envCcErr : ConsumeEnv :=
  { storeBlock := fun _ => none, ccWrite := some fun _ => some "continuity broken",
    pushBlock := some fun _ => none }

/-- Consume environment whose archiver and continuity checker succeed and
whose live-stream server rejects every push. -/
def envPushErr : ConsumeEnv :=
  { storeBlock := fun _ => none, ccWrite := some fun _ => none,
    pushBlock := some fun _ => some "stream closed" }

/-- Consume environment in which every collaborator succeeds. -/
def envAllOk : ConsumeEnv :=
  { storeBlock := fun _ => none, ccWrite := some fun _ => none,
    pushBlock := some fun _ => none }

/-- A sample block. -/
def blk (n : Nat) : Block := { num := n, id := "", time := 0 }

/-- A sample duration parser recognising only `"2m"`. -/
def pdSample : String → Option Int := fun s =>
  if s = "2m" then some (120 * 1000000000) else none

/-- A sample restorable backup module. -/
def modSample : BackupModule :=
  { backup := fun _ => .ok "artifact", requiresStop := false,
    restore := some fun _ => none }

/-- A sample non-restorable backup module. -/
def modPlain : BackupModule :=
  { backup := fun _ => .ok "artifact2", requiresStop := true, restore := none }

/-! ## Helper lemmas -/

theorem pass_fst (g : BlockNumberGate) (b : Block) :
    (g.pass b).fst = (g.passed || decide (b.num ≥ g.blockNum)) := by
  cases hg : g.passed <;> simp [BlockNumberGate.pass, hg]

theorem pass_snd_passed (g : BlockNumberGate) (b : Block) :
    (g.pass b).snd.passed = (g.pass b).fst := by
  cases hg : g.passed <;> simp [BlockNumberGate.pass, hg]

theorem gateFinal_passed (g : BlockNumberGate) (bs : List Block) :
    (gateFinal g bs).passed = (g.passed || (gateResults g bs).any id) := by
  induction bs generalizing g with
  | nil => simp [gateFinal, gateResults]
  | cons b bs ih =>
    have hsnd : (g.pass b).snd.passed = (g.passed || (g.pass b).fst) := by
      cases hg : g.passed <;> simp [BlockNumberGate.pass, hg]
    simp only [gateFinal, gateResults, List.any_cons, ih, hsnd, id]
    cases hg : g.passed <;> cases hf : (g.pass b).fst <;> simp

theorem ReadFlowRun_cons {α : Type} (tr : α → Except String Block) (hh : Bool)
    (st : ReadState) (ev : Except GoErr α) (evs : List (Except GoErr α)) :
    ReadFlowRun tr hh st (ev :: evs) =
      (match (readOneMessage st ev tr hh).result with
       | some .eof =>
         ⟨[], 0, true, (readOneMessage st ev tr hh).shutdownInitiated, 1,
           (readOneMessage st ev tr hh).state⟩
       | some (.msg _) =>
         let rest := ReadFlowRun tr hh (readOneMessage st ev tr hh).state evs
         ⟨rest.delivered, rest.maintenanceCalls + 1, rest.stoppedAtEof,
           (readOneMessage st ev tr hh).shutdownInitiated || rest.shutdownInitiated,
           rest.processed + 1, rest.finalState⟩
       | none =>
         let rest := ReadFlowRun tr hh (readOneMessage st ev tr hh).state evs
         ⟨(readOneMessage st ev tr hh).enqueued.toList ++ rest.delivered,
           rest.maintenanceCalls, rest.stoppedAtEof,
           (readOneMessage st ev tr hh).shutdownInitiated || rest.shutdownInitiated,
           rest.processed + 1, rest.finalState⟩) := rfl

theorem ReadFlowRun_no_eof {α : Type} (tr : α → Except String Block) (hh : Bool)
    (st : ReadState) (evs : List (Except GoErr α))
    (h : ∀ ev ∈ evs, ev ≠ Except.error GoErr.eof) :
    (ReadFlowRun tr hh st evs).stoppedAtEof = false ∧
    (ReadFlowRun tr hh st evs).processed = evs.length ∧
    (ReadFlowRun tr hh st evs).maintenanceCalls =
      evs.countP (fun ev => maintenanceEvent tr ev) := by
  induction evs generalizing st with
  | nil => simp [ReadFlowRun]
  | cons ev evs ih =>
    have hev := h ev (List.mem_cons_self ev evs)
    have hrest := fun st' => ih st' (fun e he => h e (List.mem_cons_of_mem _ he))
    have hA : ∀ st', (ReadFlowRun tr hh st' evs).stoppedAtEof = false :=
      fun st' => (hrest st').1
    have hB : ∀ st', (ReadFlowRun tr hh st' evs).processed = evs.length :=
      fun st' => (hrest st').2.1
    have hC : ∀ st', (ReadFlowRun tr hh st' evs).maintenanceCalls =
        evs.countP (fun ev => maintenanceEvent tr ev) :=
      fun st' => (hrest st').2.2
    match ev with
    | .error .eof => exact absurd rfl hev
    | .error (.msg s) =>
      rw [ReadFlowRun_cons]
      simp [readOneMessage, maintenanceEvent, List.countP_cons, hA, hB, hC]
    | .ok obj =>
      cases htr : tr obj with
      | error e =>
        rw [ReadFlowRun_cons]
        simp [readOneMessage, htr, maintenanceEvent, List.countP_cons, hA, hB, hC]
      | ok b =>
        rw [ReadFlowRun_cons]
        simp only [readOneMessage, htr]
        by_cases hg : (st.gator.pass b).fst = false <;>
          simp [hg, maintenanceEvent, htr, List.countP_cons, hA, hB, hC]

theorem ReadFlowRun_eof {α : Type} (tr : α → Except String Block) (hh : Bool)
    (st : ReadState) (evs₁ evs₂ : List (Except GoErr α))
    (h : ∀ ev ∈ evs₁, ev ≠ Except.error GoErr.eof) :
    (ReadFlowRun tr hh st (evs₁ ++ Except.error GoErr.eof :: evs₂)).stoppedAtEof = true ∧
    (ReadFlowRun tr hh st (evs₁ ++ Except.error GoErr.eof :: evs₂)).processed =
      evs₁.length + 1 ∧
    (ReadFlowRun tr hh st (evs₁ ++ Except.error GoErr.eof :: evs₂)).maintenanceCalls =
      evs₁.countP (fun ev => maintenanceEvent tr ev) := by
  induction evs₁ generalizing st with
  | nil =>
    rw [List.nil_append, ReadFlowRun_cons]
    simp [readOneMessage]
  | cons ev evs ih =>
    have hev := h ev (List.mem_cons_self ev evs)
    have hrest := fun st' => ih st' (fun e he => h e (List.mem_cons_of_mem _ he))
    have hA : ∀ st',
        (ReadFlowRun tr hh st' (evs ++ Except.error GoErr.eof :: evs₂)).stoppedAtEof = true :=
      fun st' => (hrest st').1
    have hB : ∀ st',
        (ReadFlowRun tr hh st' (evs ++ Except.error GoErr.eof :: evs₂)).processed =
          evs.length + 1 :=
      fun st' => (hrest st').2.1
    have hC : ∀ st',
        (ReadFlowRun tr hh st' (evs ++ Except.error GoErr.eof :: evs₂)).maintenanceCalls =
          evs.countP (fun ev => maintenanceEvent tr ev) :=
      fun st' => (hrest st').2.2
    match ev with
    | .error .eof => exact absurd rfl hev
    | .error (.msg s) =>
      rw [List.cons_append, ReadFlowRun_cons]
      simp [readOneMessage, maintenanceEvent, List.countP_cons, hA, hB, hC]
    | .ok obj =>
      cases htr : tr obj with
      | error e =>
        rw [List.cons_append, ReadFlowRun_cons]
        simp [readOneMessage, htr, maintenanceEvent, List.countP_cons, hA, hB, hC]
      | ok b =>
        rw [List.cons_append, ReadFlowRun_cons]
        simp only [readOneMessage, htr]
        by_cases hg : (st.gator.pass b).fst = false <;>
          simp [hg, maintenanceEvent, htr, List.countP_cons, hA, hB, hC]

theorem readOneMessage_err_inert {α : Type} (st : ReadState) (ev : Except GoErr α)
    (tr : α → Except String Block) (hh : Bool) (e : GoErr)
    (h : (readOneMessage st ev tr hh).result = some e) :
    readOneMessage st ev tr hh = ⟨some e, none, none, false, st⟩ := by
  match ev with
  | .error e' =>
    simp only [readOneMessage] at h ⊢
    simp at h
    rw [h]
  | .ok obj =>
    cases htr : tr obj with
    | error e'' =>
      simp only [readOneMessage, htr] at h ⊢
      simp at h
      rw [h]
    | ok b =>
      simp only [readOneMessage, htr] at h
      split at h <;> simp at h

/-! ## Claims -/

/-- Claim C2: `NewBlockNumberGate(target)` yields a gate whose `pass(block)`
returns `true` iff `block.number ≥ target` or a prior call returned `true`
(the gate records its own result, so `passed` holds exactly when some prior
call returned `true`, sticky once open); in `readOneMessage` a gated-out block
is dropped silently — not enqueued, `nil` error, state otherwise untouched;
with target 2 and inputs `[1, 2]` only block 2 is delivered and the gate then
sticks open. -/
theorem gate_pass_iff :
    (∀ (g : BlockNumberGate) (b : Block),
       ((g.pass b).fst = true ↔ (b.num ≥ g.blockNum ∨ g.passed = true))) ∧
    (∀ (g : BlockNumberGate) (b : Block), (g.pass b).snd.passed = (g.pass b).fst) ∧
    (∀ (target : Nat) (bs : List Block),
       ((gateFinal (NewBlockNumberGate target) bs).passed = true ↔
         true ∈ gateResults (NewBlockNumberGate target) bs)) ∧
    (∀ (α : Type) (st : ReadState) (obj : α) (tr : α → Except String Block)
       (hasHead : Bool) (b : Block), tr obj = Except.ok b →
       (st.gator.pass b).fst = false →
       readOneMessage st (.ok obj) tr hasHead =
         ⟨none, none, none, false, { st with gator := (st.gator.pass b).snd }⟩) ∧
    (ReadFlowRun idTransformer false ⟨NewBlockNumberGate 2, 0, false⟩
        [.ok (blk 1), .ok (blk 2)]).delivered = [blk 2] ∧
    (ReadFlowRun idTransformer false ⟨NewBlockNumberGate 2, 0, false⟩
        [.ok (blk 1), .ok (blk 2)]).finalState.gator.passed = true := by
  refine ⟨?_, pass_snd_passed, ?_, ?_, by decide, by decide⟩
  · intro g b
    rw [pass_fst]
    cases hg : g.passed <;> simp [decide_eq_true_iff, or_comm]
  · intro target bs
    rw [gateFinal_passed]
    simp only [NewBlockNumberGate, Bool.false_or, List.any_eq_true, id]
    constructor
    · rintro ⟨x, hx, rfl⟩
      exact hx
    · intro hx
      exact ⟨true, hx, rfl⟩
  · intro α st obj tr hasHead b htr h
    simp [readOneMessage, htr, h]

/-- Witness for C2: a gate at target 2 drops block 1 silently, and passes
block 2. -/
theorem gate_pass_iff_witness :
    readOneMessage (⟨NewBlockNumberGate 2, 0, false⟩ : ReadState) (.ok (blk 1))
        idTransformer false =
      ⟨none, none, none, false, ⟨⟨false, 2⟩, 0, false⟩⟩ ∧
    ((NewBlockNumberGate 2).pass (blk 2)).fst = true := by
  constructor
  · exact gate_pass_iff.2.2.2.1 Block ⟨NewBlockNumberGate 2, 0, false⟩ (blk 1)
      idTransformer false (blk 1) rfl (by decide)
  · exact (gate_pass_iff.1 (NewBlockNumberGate 2) (blk 2)).mpr (Or.inl (by decide))

/-- Claim C3: the `ReadFlow` loop terminates only on `io.EOF` from
`readOneMessage`; every other error triggers the maintenance callback and the
loop keeps reading: over any finite trace with no EOF the loop consumes every
message, never stops, and calls maintenance once per erroring message; the
loop stops exactly when the first EOF is read; and an erroring
`readOneMessage` call leaves the plugin state untouched and never initiates a
shutdown. -/
theorem readflow_nonfatal_errors :
    (∀ (α : Type) (tr : α → Except String Block) (hh : Bool) (st : ReadState)
       (evs : List (Except GoErr α)),
       (∀ ev ∈ evs, ev ≠ Except.error GoErr.eof) →
       (ReadFlowRun tr hh st evs).stoppedAtEof = false ∧
       (ReadFlowRun tr hh st evs).processed = evs.length ∧
       (ReadFlowRun tr hh st evs).maintenanceCalls =
         evs.countP (fun ev => maintenanceEvent tr ev)) ∧
    (∀ (α : Type) (tr : α → Except String Block) (hh : Bool) (st : ReadState)
       (evs₁ evs₂ : List (Except GoErr α)),
       (∀ ev ∈ evs₁, ev ≠ Except.error GoErr.eof) →
       (ReadFlowRun tr hh st (evs₁ ++ Except.error GoErr.eof :: evs₂)).stoppedAtEof = true ∧
       (ReadFlowRun tr hh st (evs₁ ++ Except.error GoErr.eof :: evs₂)).processed =
         evs₁.length + 1 ∧
       (ReadFlowRun tr hh st (evs₁ ++ Except.error GoErr.eof :: evs₂)).maintenanceCalls =
         evs₁.countP (fun ev => maintenanceEvent tr ev)) ∧
    (∀ (α : Type) (st : ReadState) (ev : Except GoErr α) (tr : α → Except String Block)
       (hh : Bool) (e : GoErr),
       (readOneMessage st ev tr hh).result = some e →
       readOneMessage st ev tr hh = ⟨some e, none, none, false, st⟩) :=
  ⟨fun _ tr hh st evs h => ReadFlowRun_no_eof tr hh st evs h,
   fun _ tr hh st evs₁ evs₂ h => ReadFlowRun_eof tr hh st evs₁ evs₂ h,
   fun _ st ev tr hh e h => readOneMessage_err_inert st ev tr hh e h⟩

/-- Witness for C3: a non-EOF error is followed by continued processing with
one maintenance call; an EOF after it stops the loop with both messages
processed. -/
theorem readflow_nonfatal_errors_witness :
    (ReadFlowRun idTransformer false ⟨NewBlockNumberGate 0, 0, false⟩
        [Except.error (GoErr.msg "boom"), Except.ok (blk 5)]).stoppedAtEof = false ∧
    (ReadFlowRun idTransformer false ⟨NewBlockNumberGate 0, 0, false⟩
        [Except.error (GoErr.msg "boom"), Except.ok (blk 5)]).maintenanceCalls = 1 ∧
    (ReadFlowRun idTransformer false ⟨NewBlockNumberGate 0, 0, false⟩
        [Except.error (GoErr.msg "boom"), Except.error GoErr.eof]).stoppedAtEof = true ∧
    (ReadFlowRun idTransformer false ⟨NewBlockNumberGate 0, 0, false⟩
        [Except.error (GoErr.msg "boom"), Except.error GoErr.eof]).processed = 2 := by
  have h1 := readflow_nonfatal_errors.1 Block idTransformer false
    ⟨NewBlockNumberGate 0, 0, false⟩
    [Except.error (GoErr.msg "boom"), Except.ok (blk 5)] (by simp)
  have h2 := readflow_nonfatal_errors.2.1 Block idTransformer false
    ⟨NewBlockNumberGate 0, 0, false⟩ [Except.error (GoErr.msg "boom")] [] (by simp)
  exact ⟨h1.1, by rw [h1.2.2]; rfl, h2.1, h2.2.1⟩

/-- Claim C4: in `readOneMessage`, a block that passes the gate while
`stopBlockNum > 0`, `block.number ≥ stopBlockNum` and the plugin is not yet
terminating triggers an asynchronous `Shutdown(nil)` and is still enqueued
(with a `nil` read error); with stop block 2 and inputs `[1, 2]`, exactly the
two blocks are delivered, no error occurs, and shutdown is initiated. -/
theorem stop_block_spec :
    (∀ (α : Type) (st : ReadState) (obj : α) (tr : α → Except String Block) (hh : Bool)
       (b : Block), tr obj = Except.ok b → (st.gator.pass b).fst = true →
       st.stopAtBlockNum ≠ 0 → st.stopAtBlockNum ≤ b.num → st.terminating = false →
       (readOneMessage st (.ok obj) tr hh).shutdownInitiated = true ∧
       (readOneMessage st (.ok obj) tr hh).enqueued = some b ∧
       (readOneMessage st (.ok obj) tr hh).result = none) ∧
    (ReadFlowRun idTransformer false ⟨NewBlockNumberGate 0, 2, false⟩
        [.ok (blk 1), .ok (blk 2)]).delivered = [blk 1, blk 2] ∧
    (ReadFlowRun idTransformer false ⟨NewBlockNumberGate 0, 2, false⟩
        [.ok (blk 1), .ok (blk 2)]).maintenanceCalls = 0 ∧
    (ReadFlowRun idTransformer false ⟨NewBlockNumberGate 0, 2, false⟩
        [.ok (blk 1), .ok (blk 2)]).shutdownInitiated = true ∧
    (ReadFlowRun idTransformer false ⟨NewBlockNumberGate 0, 2, false⟩
        [.ok (blk 1), .ok (blk 2)]).stoppedAtEof = false := by
  refine ⟨?_, by decide, by decide, by decide, by decide⟩
  intro α st obj tr hh b htr hpass hstop hge hterm
  simp [readOneMessage, htr, hpass, hstop, hterm, ge_iff_le, hge]

/-- Witness for C4: with stop block 2 and a fresh gate at 0, block 2 is
enqueued and shutdown is initiated. -/
theorem stop_block_spec_witness :
    (readOneMessage (⟨NewBlockNumberGate 0, 2, false⟩ : ReadState) (.ok (blk 2))
        idTransformer false).shutdownInitiated = true ∧
    (readOneMessage (⟨NewBlockNumberGate 0, 2, false⟩ : ReadState) (.ok (blk 2))
        idTransformer false).enqueued = some (blk 2) := by
  have h := stop_block_spec.1 Block ⟨NewBlockNumberGate 0, 2, false⟩ (blk 2) idTransformer
    false (blk 2) rfl (by decide) (by decide) (by decide) rfl
  exact ⟨h.1, h.2.1⟩

/-- Claim C1: in the consume loop, an archiver `storeBlock` error shuts the
plugin down with the wrapped error and stops the loop; a continuity-checker
`Write` error does not shut down — the maintenance callback fires and the loop
continues; a live-stream `PushBlock` error shuts the plugin down with the
wrapped error and stops the loop. -/
theorem consume_error_policy :
    ∀ (env : ConsumeEnv) (b : Block),
    (∀ e, env.storeBlock b = some e →
       consumeBlock env b =
         ⟨false, false, some ("archiver store block failed: " ++ e), false⟩) ∧
    (∀ w, env.storeBlock b = none → env.ccWrite = some w → (∃ e, w b.num = some e) →
       consumeBlock env b = ⟨true, false, none, true⟩) ∧
    (∀ p e, env.storeBlock b = none →
       (env.ccWrite = none ∨ ∃ w, env.ccWrite = some w ∧ w b.num = none) →
       env.pushBlock = some p → p b = some e →
       consumeBlock env b =
         ⟨false, true, some ("failed writing to blocks server handler: " ++ e), false⟩) := by
  intro env b
  refine ⟨?_, ?_, ?_⟩
  · intro e hs
    simp [consumeBlock, hs]
  · rintro w hs hw ⟨e, he⟩
    simp [consumeBlock, hs, hw, he]
  · rintro p e hs (hw | ⟨w, hw, hwn⟩) hp hpe <;>
      simp [consumeBlock, consumePush, hs, hw, hp, hpe]
    simp [hwn]

/-- Witness for C1: the three error environments produce exactly the outcomes
the claim describes. -/
theorem consume_error_policy_witness :
    consumeBlock envStoreErr (blk 1) =
      ⟨false, false, some "archiver store block failed: disk full", false⟩ ∧
    consumeBlock envCcErr (blk 1) = ⟨true, false, none, true⟩ ∧
    consumeBlock envPushErr (blk 1) =
      ⟨false, true, some "failed writing to blocks server handler: stream closed",
        false⟩ := by
  refine ⟨?_, ?_, ?_⟩
  · have h := (consume_error_policy envStoreErr (blk 1)).1 "disk full" rfl
    simpa using h
  · exact (consume_error_policy envCcErr (blk 1)).2.1 (fun _ => some "continuity broken")
      rfl rfl ⟨"continuity broken", rfl⟩
  · have h := (consume_error_policy envPushErr (blk 1)).2.2 (fun _ => some "stream closed")
      "stream closed" rfl (Or.inr ⟨fun _ => none, rfl, rfl⟩) rfl rfl
    simpa using h

/-- Claim C9: when the continuity checker's `Write` fails for a block that the
archiver already stored, `PushBlock` is skipped for that block (the
`continue` branch) and no shutdown occurs; on a later block whose continuity
check succeeds, publication resumes (`PushBlock` is invoked). -/
theorem consume_cc_error_skips_push :
    ∀ (env : ConsumeEnv) (b : Block),
    (∀ w, env.storeBlock b = none → env.ccWrite = some w → w b.num ≠ none →
       (consumeBlock env b).pushed = false ∧ (consumeBlock env b).shutdown = none ∧
       (consumeBlock env b).continues = true) ∧
    (∀ (b' : Block) (p : Block → Option String), env.storeBlock b' = none →
       (env.ccWrite = none ∨ ∃ w, env.ccWrite = some w ∧ w b'.num = none) →
       env.pushBlock = some p →
       (consumeBlock env b').pushed = true) := by
  intro env b
  constructor
  · intro w hs hw hnum
    cases hval : w b.num with
    | none => exact absurd hval hnum
    | some e => simp [consumeBlock, hs, hw, hval]
  · rintro b' p hs (hw | ⟨w, hw, hwn⟩) hp <;>
      cases hpb : p b' <;> simp [consumeBlock, consumePush, hs, hw, hp, hpb]
    all_goals simp [hwn]

/-- Witness for C9: with the continuity checker failing, the block is not
pushed; with everything succeeding, the block is pushed. -/
theorem consume_cc_error_skips_push_witness :
    (consumeBlock envCcErr (blk 3)).pushed = false ∧
    (consumeBlock envAllOk (blk 4)).pushed = true := by
  constructor
  · exact ((consume_cc_error_skips_push envCcErr (blk 3)).1
      (fun _ => some "continuity broken") rfl rfl (by simp)).1
  · exact (consume_cc_error_skips_push envAllOk (blk 4)).2 (blk 4) (fun _ => none) rfl
      (Or.inr ⟨fun _ => none, rfl, rfl⟩) rfl

theorem parseUint64_empty : parseUint64 "" = none := rfl

theorem parseUint64_ne_empty (s : String) (n : Nat) (h : parseUint64 s = some n) :
    s ≠ "" := by
  intro hs
  rw [hs, parseUint64_empty] at h
  exact Option.noConfusion h

theorem parseUint64_lt (s : String) (n : Nat) (h : parseUint64 s = some n) :
    n < uint64Size := by
  unfold parseUint64 at h
  split at h
  · exact Option.noConfusion h
  · split at h
    · split at h
      · obtain rfl := Option.some.inj h
        assumption
      · exact Option.noConfusion h
    · exact Option.noConfusion h

/-- Claim C5 (amended): `NewBackupSchedule` returns `BlocksBetweenRuns = n > 0`
when `freqBlocks` parses to a positive `n` that also fits the signed 64-bit
`int` (`n < 2^63`; larger parses succeed but store a negative count — see the
counterexample); errors when `freqBlocks` is non-empty and fails to parse or
is zero; with `freqBlocks` empty, sets `TimeBetweenRuns = d` when `freqTime`
parses to `d ≥ 1 minute` and errors otherwise or when both are empty; any
successfully constructed schedule has exactly one cadence field set. -/
theorem backup_schedule_spec :
    ∀ (pd : String → Option Int) (fB fT rh bn : String),
    (∀ n, parseUint64 fB = some n → n ≠ 0 → n < int64Half →
       NewBackupSchedule pd fB fT rh bn = Except.ok ⟨(n : Int), 0, rh, bn⟩) ∧
    (fB ≠ "" → (parseUint64 fB = none ∨ parseUint64 fB = some 0) →
       ∃ e, NewBackupSchedule pd fB fT rh bn = Except.error e) ∧
    (∀ d, fB = "" → fT ≠ "" → pd fT = some d → goMinute ≤ d →
       NewBackupSchedule pd fB fT rh bn = Except.ok ⟨0, d, rh, bn⟩) ∧
    (fB = "" → fT ≠ "" → (pd fT = none ∨ ∃ d, pd fT = some d ∧ d < goMinute) →
       ∃ e, NewBackupSchedule pd fB fT rh bn = Except.error e) ∧
    (fB = "" → fT = "" → ∃ e, NewBackupSchedule pd fB fT rh bn = Except.error e) ∧
    (∀ sched, NewBackupSchedule pd fB fT rh bn = Except.ok sched →
       (sched.BlocksBetweenRuns ≠ 0 ∧ sched.TimeBetweenRuns = 0) ∨
       (sched.BlocksBetweenRuns = 0 ∧ goMinute ≤ sched.TimeBetweenRuns)) := by
  intro pd fB fT rh bn
  refine ⟨?_, ?_, ?_, ?_, ?_, ?_⟩
  · intro n hn hn0 hlt
    have hne := parseUint64_ne_empty fB n hn
    simp [NewBackupSchedule, hne, hn, hn0, intOfUint64, hlt]
  · rintro hne (hbad | hbad) <;>
      exact ⟨"invalid value for freq_block in backup schedule",
        by simp [NewBackupSchedule, hne, hbad]⟩
  · intro d h1 h2 h3 h4
    simp [NewBackupSchedule, h1, h2, h3, not_lt.mpr h4]
  · rintro h1 h2 (hbad | ⟨d, hd, hdlt⟩)
    · exact ⟨"invalid value for freq_time in backup schedule",
        by simp [NewBackupSchedule, h1, h2, hbad]⟩
    · exact ⟨"invalid value for freq_time in backup schedule",
        by simp [NewBackupSchedule, h1, h2, hd, hdlt]⟩
  · intro h1 h2
    exact ⟨"schedule created without any frequency value",
      by simp [NewBackupSchedule, h1, h2]⟩
  · intro sched h
    by_cases hfb : fB = ""
    · by_cases hft : fT = ""
      · simp [NewBackupSchedule, hfb, hft] at h
      · cases hpd : pd fT with
        | none => simp [NewBackupSchedule, hfb, hft, hpd] at h
        | some d =>
          by_cases hd : d < goMinute
          · simp [NewBackupSchedule, hfb, hft, hpd, hd] at h
          · simp [NewBackupSchedule, hfb, hft, hpd, hd] at h
            subst h
            exact Or.inr ⟨rfl, not_lt.mp hd⟩
    · cases hp : parseUint64 fB with
      | none => simp [NewBackupSchedule, hfb, hp] at h
      | some n =>
        by_cases hn0 : n = 0
        · simp [NewBackupSchedule, hfb, hp, hn0] at h
        · have hlt := parseUint64_lt fB n hp
          simp [NewBackupSchedule, hfb, hp, hn0] at h
          subst h
          refine Or.inl ⟨?_, rfl⟩
          show ¬ intOfUint64 n = 0
          unfold intOfUint64
          split
          · exact_mod_cast hn0
          · have h1 : (n : Int) < (uint64Size : Int) := by exact_mod_cast hlt
            omega

/-- Counterexample for C5 as stated: `freqBlocks = "9223372036854775808"`
(`2^63`) parses to a positive integer, yet the constructor succeeds with a
negative `BlocksBetweenRuns`, not a positive one. -/
theorem backup_schedule_pos_cex :
    parseUint64 "9223372036854775808" = some 9223372036854775808 ∧
    0 < 9223372036854775808 ∧
    NewBackupSchedule (fun _ => none) "9223372036854775808" "" "host" "mod" =
      Except.ok ⟨-9223372036854775808, 0, "host", "mod"⟩ ∧
    ((-9223372036854775808 : Int) < 0) := by
  refine ⟨by rfl, by decide, by rfl, by decide⟩

/-- Witness for C5: a small block frequency and a two-minute time frequency
each construct the expected schedule, and the empty configuration errors. -/
theorem backup_schedule_spec_witness :
    NewBackupSchedule pdSample "5" "" "host" "mod" = Except.ok ⟨5, 0, "host", "mod"⟩ ∧
    NewBackupSchedule pdSample "" "2m" "host" "mod" =
      Except.ok ⟨0, 120000000000, "host", "mod"⟩ ∧
    (∃ e, NewBackupSchedule pdSample "" "" "host" "mod" = Except.error e) := by
  refine ⟨?_, ?_, ?_⟩
  · exact (backup_schedule_spec pdSample "5" "" "host" "mod").1 5 (by rfl) (by decide)
      (by norm_num [int64Half])
  · exact (backup_schedule_spec pdSample "" "2m" "host" "mod").2.2.1 120000000000 rfl
      (by decide) (by rfl) (by norm_num [goMinute])
  · exact (backup_schedule_spec pdSample "" "" "host" "mod").2.2.2.2.1 rfl rfl

/-- Claim C10: `NewBackupSchedule` parses `freqBlocks` with
`strconv.ParseUint(…, 10, 64)` and stores the result through the conversion
`int(freqUint)`; for every parsed value in `[2^63, 2^64)` the constructor
succeeds and the resulting `BlocksBetweenRuns` is negative — no error is
returned. -/
theorem backup_schedule_int_overflow :
    ∀ (pd : String → Option Int) (fB fT rh bn : String) (n : Nat),
    parseUint64 fB = some n → int64Half ≤ n →
    NewBackupSchedule pd fB fT rh bn =
      Except.ok ⟨(n : Int) - (uint64Size : Int), 0, rh, bn⟩ ∧
    (n : Int) - (uint64Size : Int) < 0 := by
  intro pd fB fT rh bn n hp hge
  have hne := parseUint64_ne_empty fB n hp
  have hlt := parseUint64_lt fB n hp
  have hn0 : n ≠ 0 := by
    intro h0
    rw [h0] at hge
    norm_num [int64Half] at hge
  constructor
  · simp [NewBackupSchedule, hne, hp, hn0, intOfUint64, not_lt.mpr hge]
  · have h1 : (n : Int) < (uint64Size : Int) := by exact_mod_cast hlt
    omega

/-- Witness for C10: the concrete frequency string `"9223372036854775808"`. -/
theorem backup_schedule_int_overflow_witness :
    NewBackupSchedule (fun _ => none) "9223372036854775808" "" "host" "mod" =
      Except.ok ⟨(9223372036854775808 : Int) - (uint64Size : Int), 0, "host", "mod"⟩ ∧
    ((9223372036854775808 : Int) - (uint64Size : Int) < 0) := by
  have h := backup_schedule_int_overflow (fun _ => none) "9223372036854775808" "" "host"
    "mod" 9223372036854775808 (by rfl) (by norm_num [int64Half])
  exact ⟨h.1, h.2⟩

theorem lookupModule_mem :
    ∀ (l : ModuleRegistry) (name : String) (m : BackupModule),
    lookupModule l name = some m → ∃ k, (k, m) ∈ l := by
  intro l
  induction l with
  | nil =>
    intro name m h
    simp [lookupModule] at h
  | cons kv rest ih =>
    intro name m h
    obtain ⟨k, v⟩ := kv
    rw [lookupModule] at h
    by_cases hk : k = name
    · rw [if_pos hk] at h
      obtain rfl := Option.some.inj h
      exact ⟨k, List.mem_cons_self _ _⟩
    · rw [if_neg hk] at h
      obtain ⟨k', hk'⟩ := ih name m h
      exact ⟨k', List.mem_cons_of_mem _ hk'⟩

theorem restorableModules_restore (mods : ModuleRegistry) (k : String)
    (m : BackupModule) (h : (k, m) ∈ restorableModules mods) :
    m.restore.isSome = true := by
  have hm := List.mem_filter.mp h
  simpa using hm.2

theorem selectRestore_ok_mem :
    ∀ (choices : ModuleRegistry) (name : String) (m : BackupModule),
    selectRestoreModule choices name = Except.ok m →
    ∃ k, (k, m) ∈ restorableModules choices := by
  intro choices name m h
  unfold selectRestoreModule at h
  by_cases h0 : (restorableModules choices).length = 0
  · simp [h0] at h
  · by_cases hn : name ≠ ""
    · cases hlk : lookupModule (restorableModules choices) name with
      | none => simp [h0, hn, hlk] at h
      | some m' =>
        simp [h0, hn, hlk] at h
        exact h ▸ lookupModule_mem _ _ _ hlk
    · by_cases h1 : 1 < (restorableModules choices).length
      · simp [h0, hn, h1] at h
      · cases hls : restorableModules choices with
        | nil => rw [hls] at h0; simp at h0
        | cons kv rest =>
          obtain ⟨k1, v1⟩ := kv
          rw [hls] at h h1
          rw [List.length_cons] at h1
          have hrl : rest = [] := List.length_eq_zero.mp (by omega)
          subst hrl
          simp [hn] at h
          exact ⟨k1, by rw [← h]; simp⟩

/-- Claim C6: `selectBackupModule` errors on an empty registry; with a name it
returns the named module or errors when absent; with no name it errors listing
the registered names when several are registered and returns the unique module
when exactly one is; `selectRestoreModule` behaves identically over the
restore-capable sub-registry, erroring when that subset is empty, and any
module it returns is restore-capable. -/
theorem select_module_spec :
    ∀ (mods : ModuleRegistry) (name : String),
    (mods = [] → selectBackupModule mods name = Except.error .noModules) ∧
    (∀ m, name ≠ "" → mods ≠ [] → lookupModule mods name = some m →
       selectBackupModule mods name = Except.ok m) ∧
    (name ≠ "" → mods ≠ [] → lookupModule mods name = none →
       selectBackupModule mods name = Except.error (.invalidModule name)) ∧
    (name = "" → 1 < mods.length →
       selectBackupModule mods name = Except.error (.moreThanOne (mods.map Prod.fst))) ∧
    (∀ k m, name = "" → mods = [(k, m)] → selectBackupModule mods name = Except.ok m) ∧
    (restorableModules mods = [] →
       selectRestoreModule mods name = Except.error .noRestorable) ∧
    (∀ m, name ≠ "" → restorableModules mods ≠ [] →
       lookupModule (restorableModules mods) name = some m →
       selectRestoreModule mods name = Except.ok m) ∧
    (name ≠ "" → restorableModules mods ≠ [] →
       lookupModule (restorableModules mods) name = none →
       selectRestoreModule mods name = Except.error (.invalidRestorable name)) ∧
    (name = "" → 1 < (restorableModules mods).length →
       selectRestoreModule mods name =
         Except.error (.moreThanOneRestorable ((restorableModules mods).map Prod.fst))) ∧
    (∀ k m, name = "" → restorableModules mods = [(k, m)] →
       selectRestoreModule mods name = Except.ok m) ∧
    (∀ m, selectRestoreModule mods name = Except.ok m → m.restore.isSome = true) := by
  intro mods name
  refine ⟨?_, ?_, ?_, ?_, ?_, ?_, ?_, ?_, ?_, ?_, ?_⟩
  · rintro rfl
    simp [selectBackupModule]
  · intro m hn hne hlk
    have h0 : mods.length ≠ 0 := by simpa [List.length_eq_zero] using hne
    simp [selectBackupModule, h0, hn, hlk]
  · intro hn hne hlk
    have h0 : mods.length ≠ 0 := by simpa [List.length_eq_zero] using hne
    simp [selectBackupModule, h0, hn, hlk]
  · intro hn h1
    have h0 : mods.length ≠ 0 := by omega
    simp [selectBackupModule, h0, hn, h1]
  · rintro k m hn rfl
    simp [selectBackupModule, hn]
  · intro hr
    simp [selectRestoreModule, hr]
  · intro m hn hne hlk
    have h0 : (restorableModules mods).length ≠ 0 := by
      simpa [List.length_eq_zero] using hne
    simp [selectRestoreModule, h0, hn, hlk]
  · intro hn hne hlk
    have h0 : (restorableModules mods).length ≠ 0 := by
      simpa [List.length_eq_zero] using hne
    simp [selectRestoreModule, h0, hn, hlk]
  · intro hn h1
    have h0 : (restorableModules mods).length ≠ 0 := by omega
    simp [selectRestoreModule, h0, hn, h1]
  · intro k m hn hr
    simp [selectRestoreModule, hr, hn]
  · intro m h
    obtain ⟨k, hk⟩ := selectRestore_ok_mem mods name m h
    exact restorableModules_restore mods k m hk

/-- Witness for C6: a singleton registry selects its unique module with no
name given; the restorable selector returns the restorable module of a
two-module registry by name; an empty registry errors. -/
theorem select_module_spec_witness :
    selectBackupModule [("a", modSample)] "" = Except.ok modSample ∧
    selectRestoreModule [("a", modSample), ("b", modPlain)] "a" =
      Except.ok modSample ∧
    selectBackupModule [] "" = Except.error .noModules := by
  refine ⟨?_, ?_, ?_⟩
  · exact (select_module_spec [("a", modSample)] "").2.2.2.2.1 "a" modSample rfl rfl
  · exact (select_module_spec [("a", modSample), ("b", modPlain)] "a").2.2.2.2.2.2.1
      modSample (by decide) (by simp [restorableModules, modSample]) (by rfl)
  · exact (select_module_spec [] "").1 rfl

/-- Claim C7 (amended): the `BackupModule` interface declares
`Backup(lastSeenBlockNum uint32)`, so a call `Backup(n)` is well-typed exactly
for `n < 2^32` — the full unsigned 32-bit range, not the full unsigned 64-bit
range (see the counterexample at `n = 2^32`). -/
theorem backup_arg_range : ∀ n : Nat, backupCallWellTyped n ↔ n < uint32Size := by
  intro n
  constructor
  · rintro ⟨i, rfl⟩
    exact i.isLt
  · intro h
    exact ⟨⟨n, h⟩, rfl⟩

/-- Counterexample for C7 as stated: `2^32` is a `uint64` value, but the call
`Backup(2^32)` is not well-typed for the declared `uint32` parameter. -/
theorem backup_arg_range_cex :
    ((2 : Nat) ^ 32 < uint64Size) ∧ ¬ backupCallWellTyped (2 ^ 32) := by
  constructor
  · norm_num [uint64Size]
  · rintro ⟨i, hi⟩
    have hlt := i.isLt
    rw [hi] at hlt
    exact absurd hlt (by norm_num [uint32Size])

/-- Witness for C7: `42` is a well-typed backup argument. -/
theorem backup_arg_range_witness : backupCallWellTyped 42 :=
  (backup_arg_range 42).mpr (by norm_num [uint32Size])

/-- Claim C8 (amended): in the repository's reference test for the archiver
selector, every expected uploaded or buffered merged bundle is a strictly
ascending list of at most 100 block numbers lying inside one aligned hundred-
window `[100k, 100k+99]`; a full aligned 100-block range is not guaranteed —
the flush-on-exit scenario uploads the three-block bundle `[101, 102, 199]`
(see the counterexample). -/
theorem merge_window_spec :
    ∀ t ∈ archiverSelectorTests,
      withinAlignedWindow t.expectUploadedMergedBlocks = true ∧
      withinAlignedWindow t.expectBufferedMergedBlocks = true ∧
      t.expectUploadedMergedBlocks.length ≤ 100 ∧
      t.expectBufferedMergedBlocks.length ≤ 100 := by
  decide

/-- Counterexample for C8 as stated: the repository's own reference test
expects the selector to upload the merged bundle `[101, 102, 199]` — three
blocks, not an aligned 100-block range. -/
theorem merge_window_cex :
    ∃ t ∈ archiverSelectorTests,
      t.expectUploadedMergedBlocks = [101, 102, 199] ∧
      alignedHundredRange t.expectUploadedMergedBlocks = false ∧
      t.expectUploadedMergedBlocks.length ≠ 100 := by
  refine ⟨{ name := "from merged to live young blocks",
            input := [98, 99, 101, 102, 199, 200, 201],
            mergeTimeThreshold := (3600 - 199) * goSecond,
            expectUploadedMergedBlocks := [101, 102, 199],
            expectBufferedMergedBlocks := [],
            expectOneBlocks := [98, 99, 101, 200, 201] }, by decide, rfl, by rfl, by decide⟩

/-- Witness for C8: the flush-on-exit scenario's uploaded bundle and a
buffered bundle both satisfy the aligned-window property. -/
theorem merge_window_spec_witness :
    withinAlignedWindow [101, 102, 199] = true ∧
    withinAlignedWindow [100, 101, 102, 103] = true := by
  have h1 := merge_window_spec
    { name := "from merged to live young blocks",
      input := [98, 99, 101, 102, 199, 200, 201],
      mergeTimeThreshold := (3600 - 199) * goSecond,
      expectUploadedMergedBlocks := [101, 102, 199],
      expectBufferedMergedBlocks := [],
      expectOneBlocks := [98, 99, 101, 200, 201] } (by decide)
  have h2 := merge_window_spec
    { name := "multiple old blocks starting on boundary",
      input := [100, 101, 102, 103],
      mergeTimeThreshold := goMinute,
      expectUploadedMergedBlocks := [],
      expectBufferedMergedBlocks := [100, 101, 102, 103],
      expectOneBlocks := [] } (by decide)
  exact ⟨h1.1, h2.2.1⟩

end NodeManager
